import Mathlib

/-!
Verification of the gallery bot's relationship / session / interaction-state
coordination engine (`gallery_bot.py`).

The persisted JSON document is modelled as a structure of association lists
(Python dicts with string keys, first binding authoritative).  Each handler
that mutates state is translated to a pure function from the old document
(plus the values the handler reads from the transport) to the new document
and an observable outcome.
-/

namespace GalleryBot

/-- Python dict lookup `d.get(k)` on an association list. -/
def dlookup {α : Type} (k : String) : List (String × α) → Option α
  | [] => none
  | (k', v) :: rest => if k' = k then some v else dlookup k rest

/-- Python dict assignment `d[k] = v`: replaces the binding in place, or
appends a new binding at the end. -/
def dinsert {α : Type} (k : String) (v : α) : List (String × α) → List (String × α)
  | [] => [(k, v)]
  | (k', v') :: rest =>
    if k' = k then (k, v) :: rest else (k', v') :: dinsert k v rest

/-- Python dict deletion `del d[k]` (guarded by a membership check in the
source, so deleting an absent key is a no-op here). -/
def derase {α : Type} (k : String) : List (String × α) → List (String × α)
  | [] => []
  | (k', v) :: rest =>
    if k' = k then derase k rest else (k', v) :: derase k rest

/-- A comment attached to a gallery file (`files[i]["comments"][j]`). -/
structure FileComment where
  author : String
  text : String
deriving DecidableEq, Repr

/-- One entry of a gallery's `files` list. -/
structure FileInfo where
  ftype : String
  file_id : String
  name : String
  comment : String
  added_by : String
  added_date : String
  local_path : Option String
  comments : List FileComment
deriving DecidableEq, Repr

/-- A record of `data["users"]`: display handle, friend list, and the
per-friend custom display names. -/
structure UserRec where
  username : String
  friends : List String
  nicknames : List (String × String)
deriving DecidableEq, Repr

/-- A record of `data["galleries"]`: the pair's membership plus the ordered
file list. -/
structure Gallery where
  users : List String
  files : List FileInfo
deriving DecidableEq, Repr

/-- A record of `data["invites"]`, keyed by the invited user. -/
structure Invite where
  from_id : String
  from_username : String
deriving DecidableEq, Repr

/-- A record of `data["chat_requests"]`, keyed by the requesting user:
the addressed user and the transport id of the notification message. -/
structure ChatReq where
  to_id : String
  message_id : Nat
deriving DecidableEq, Repr

/-- The persisted document (`gallery_data.json`). -/
structure St where
  users : List (String × UserRec)
  galleries : List (String × Gallery)
  invites : List (String × Invite)
  chat_requests : List (String × ChatReq)
  active_chats : List (String × String)
  banned_users : List String
deriving DecidableEq, Repr

/-- The empty document (`load_data` default plus empty optional sections). -/
def St.initial : St := ⟨[], [], [], [], [], []⟩

/-- Reads `data["users"].get(user_id, dict()).get("friends", list())`. -/
def friendsOf (users : List (String × UserRec)) (uid : String) : List String :=
  ((dlookup uid users).map UserRec.friends).getD []

/-- Predicate `is_banned`: membership of the id in `data.get("banned_users", list())`. -/
def is_banned (s : St) (uid : String) : Bool :=
  s.banned_users.contains uid

/-- Python's string comparison: lexicographic over the code points. -/
def lexLt : List Char → List Char → Bool
  | _, [] => false
  | [], _ :: _ => true
  | a :: as, b :: bs => if a < b then true else if b < a then false else lexLt as bs

/-- Python `min(a, b)` on strings: returns `b` exactly when `b < a`. -/
def strMin (a b : String) : String := if lexLt b.data a.data then b else a

/-- Python `max(a, b)` on strings: returns `b` exactly when `a < b`. -/
def strMax (a b : String) : String := if lexLt a.data b.data then b else a

/-- The gallery key `f"\x7bmin(a, b)\x7d_\x7bmax(a, b)\x7d"` built at
`accept_invite`, `view_gallery` and every other pairwise lookup. -/
def pairKey (a b : String) : String :=
  strMin a b ++ "_" ++ strMax a b

/-- Python `str.strip()`: whitespace removed from both ends. -/
def stripChars (l : List Char) : List Char :=
  ((l.dropWhile Char.isWhitespace).reverse.dropWhile Char.isWhitespace).reverse

/-- Observable outcome of the `/start` handler. -/
inductive StartOutcome
  | banned
  | showInvites
  | mainMenu
deriving DecidableEq, Repr

/-- Handler `start`: the `/start` command handler.  Rejects banned users, registers
the user on first contact, then either surfaces a pending invite or shows
the main menu. -/
def start (s : St) (user_id username : String) : St × StartOutcome :=
  if is_banned s user_id then (s, .banned)
  else
    let s :=
      if (dlookup user_id s.users).isNone then
        { s with users := dinsert user_id ⟨username, [], []⟩ s.users }
      else s
    if (dlookup user_id s.invites).isSome then (s, .showInvites)
    else (s, .mainMenu)

/-- The `"restart"` branch of `button_handler`: re-registers the user by
overwriting the whole user record with a fresh one. -/
def restart_button (s : St) (user_id username : String) : St :=
  { s with users := dinsert user_id ⟨username, [], []⟩ s.users }

/-- Python `str.lower()`, character by character. -/
def lowerStr (s : String) : String := ⟨s.data.map Char.toLower⟩

/-- First user whose stored handle matches the given handle
case-insensitively (the lookup loop of `handle_friend_username`). -/
def resolve_by_handle (users : List (String × UserRec)) (username : String) :
    Option String :=
  (users.find? (fun p => lowerStr p.2.username = lowerStr username)).map Prod.fst

/-- Observable outcome of the add-friend text handler. -/
inductive InviteOutcome
  | unknownHandle
  | selfInvite
  | alreadyFriends
  | sent
deriving DecidableEq, Repr

/-- Handler `handle_friend_username`: resolves the typed handle (trimmed, leading
`@` removed), rejects unknown handles, self-invites and existing friends,
and otherwise stores/overwrites the invite addressed to the target. -/
def handle_friend_username (s : St) (user_id sender_username text : String) :
    St × InviteOutcome :=
  let username : String := ⟨(stripChars text.data).dropWhile (· = '@')⟩
  match resolve_by_handle s.users username with
  | none => (s, .unknownHandle)
  | some friend_id =>
    if friend_id = user_id then (s, .selfInvite)
    else if friend_id ∈ friendsOf s.users user_id then (s, .alreadyFriends)
    else
      ({ s with invites := dinsert friend_id ⟨user_id, sender_username⟩ s.invites },
       .sent)

/-- Performs `data["users"][uid]["friends"].append(fid)` on the (unique) binding
for `uid`. -/
def addFriend (uid fid : String) : List (String × UserRec) → List (String × UserRec)
  | [] => []
  | (k, r) :: rest =>
    if k = uid then (k, { r with friends := r.friends ++ [fid] }) :: rest
    else (k, r) :: addFriend uid fid rest

/-- Performs `if uid not in data["users"]: data["users"][uid] = fresh record`. -/
def ensureUser (uid uname : String) (users : List (String × UserRec)) :
    List (String × UserRec) :=
  if (dlookup uid users).isNone then dinsert uid ⟨uname, [], []⟩ users else users

/-- Performs `if fid not in data["users"][uid].get("friends", []): append it`. -/
def addFriendIfMissing (uid fid : String) (users : List (String × UserRec)) :
    List (String × UserRec) :=
  if fid ∈ friendsOf users uid then users else addFriend uid fid users

/-- Performs `if gid not in data.get("galleries", dict()): create it`. -/
def ensureGallery (gid : String) (members : List String)
    (galleries : List (String × Gallery)) : List (String × Gallery) :=
  if (dlookup gid galleries).isNone then dinsert gid ⟨members, []⟩ galleries
  else galleries

/-- Handler `accept_invite`: creates missing user records, adds the symmetric
friendship edges (guarded by membership checks), lazily creates the pair's
gallery, and deletes the invite addressed to the accepting user.  The
handler has no failure path: it runs these effects unconditionally. -/
def accept_invite (s : St) (user_id acceptor_username from_id : String) : St :=
  let users := ensureUser user_id acceptor_username s.users
  let users := ensureUser from_id "unknown" users
  let users := addFriendIfMissing user_id from_id users
  let users := addFriendIfMissing from_id user_id users
  let gallery_id := pairKey user_id from_id
  let galleries := ensureGallery gallery_id [user_id, from_id] s.galleries
  let invites := derase user_id s.invites
  { s with users := users, galleries := galleries, invites := invites }

/-- Handler `decline_invite`: deletes the invite addressed to the user, nothing
else. -/
def decline_invite (s : St) (user_id : String) : St :=
  { s with invites := derase user_id s.invites }

/-- Observable outcome of `start_chat_request`. -/
inductive ReqOutcome
  | alreadyRequested
  | alreadyInChat
  | deliveryFailed
  | sent
deriving DecidableEq, Repr

/-- Handler `start_chat_request`: rejects a sender who already has an outstanding
request or an active chat; otherwise attempts the notification send
(modelled by `delivery`: `some mid` is a successful send returning message
id `mid`, `none` is a raised send) and records the request only after a
successful send. -/
def start_chat_request (s : St) (user_id friend_id : String)
    (delivery : Option Nat) : St × ReqOutcome :=
  if (dlookup user_id s.chat_requests).isSome then (s, .alreadyRequested)
  else if (dlookup user_id s.active_chats).isSome then (s, .alreadyInChat)
  else
    match delivery with
    | none => (s, .deliveryFailed)
    | some mid =>
      ({ s with chat_requests := dinsert user_id ⟨friend_id, mid⟩ s.chat_requests },
       .sent)

/-- Handler `cancel_chat_request`: deletes the sender's request when it exists and
is addressed as claimed; the returned flag tells whether a request was
cancelled. -/
def cancel_chat_request (s : St) (user_id friend_id : String) : St × Bool :=
  match dlookup user_id s.chat_requests with
  | some req =>
    if req.to_id = friend_id then
      ({ s with chat_requests := derase user_id s.chat_requests }, true)
    else (s, false)
  | none => (s, false)

/-- Handler `accept_chat`: deletes the requester's pending request if present and
installs the active chat in both directions.  The handler performs no
check that a request actually exists, nor any check on the acceptor's own
request slot. -/
def accept_chat (s : St) (user_id from_id : String) : St :=
  let s := { s with chat_requests := derase from_id s.chat_requests }
  { s with active_chats := dinsert from_id user_id (dinsert user_id from_id s.active_chats) }

/-- Handler `decline_chat`: deletes the requester's pending request if present. -/
def decline_chat (s : St) (from_id : String) : St :=
  { s with chat_requests := derase from_id s.chat_requests }

/-- Handler `end_chat`: removes both directions of the active chat. -/
def end_chat (s : St) (user_id partner_id : String) : St :=
  { s with active_chats := derase partner_id (derase user_id s.active_chats) }

/-- Where an inbound content-bearing event ends up. -/
inductive MsgRoute
  | adminBroadcast
  | adminViewUser
  | adminBan
  | friendUsername
  | friendNickname
  | fileName
  | fileComment
  | fileNewComment
  | fileUpload
  | chatRelay
  | dropped
deriving DecidableEq, Repr

/-- The dispatch of `message_handler` on a text event: admin broadcast and
admin stages first, then the `waiting_for` stage chain, then the active
chat relay.  A `waiting_for` value outside the handled set falls through
to the relay. -/
def message_handler_route (isAdmin : Bool) (waiting : Option String)
    (hasActiveChat : Bool) : MsgRoute :=
  if isAdmin ∧ waiting = some "admin_broadcast" then .adminBroadcast
  else if waiting = some "admin_view_user" ∧ isAdmin then .adminViewUser
  else if waiting = some "admin_ban" ∧ isAdmin then .adminBan
  else if waiting = some "friend_username" then .friendUsername
  else if waiting = some "friend_nickname" then .friendNickname
  else if waiting = some "file_name" then .fileName
  else if waiting = some "file_comment" then .fileComment
  else if waiting = some "file_new_comment" then .fileNewComment
  else if hasActiveChat then .chatRelay
  else .dropped

/-- The dispatch of `file_handler` on a media event: admin broadcast first,
then the `"file"` stage, then the active chat relay. -/
def file_handler_route (isAdmin : Bool) (waiting : Option String)
    (hasActiveChat : Bool) : MsgRoute :=
  if isAdmin ∧ waiting = some "admin_broadcast" then .adminBroadcast
  else if waiting = some "file" then .fileUpload
  else if hasActiveChat then .chatRelay
  else .dropped

/-- The chat-session mutual-exclusion invariant claimed by the spec: no
identity holds an outstanding chat request and an active chat at the same
time. -/
def chatInv (s : St) : Prop :=
  ∀ x : String,
    ¬((dlookup x s.chat_requests).isSome ∧ (dlookup x s.active_chats).isSome)

/-! ### Concrete test fixtures -/

/-- Fixture: two registered users, no pending invite anywhere. -/
def noInviteFixture : St :=
  ⟨[("1", ⟨"alice", [], []⟩), ("2", ⟨"bob", [], []⟩)], [], [], [], [], []⟩

/-- Fixture: user "1" invited user "2"; the invite is pending. -/
def pendingInviteFixture : St :=
  ⟨[("1", ⟨"alice", [], []⟩), ("2", ⟨"bob", [], []⟩)], [],
   [("2", ⟨"1", "alice"⟩)], [], [], []⟩

/-- Fixture: user "2" already has a pending invite from "9"; user "1" is
about to send one too. -/
def overwriteInviteFixture : St :=
  ⟨[("1", ⟨"alice", [], []⟩), ("2", ⟨"Bob", [], []⟩)], [],
   [("2", ⟨"9", "eve"⟩)], [], [], []⟩

/-- Fixture: banned user "1" who has friend "2". -/
def bannedFixture : St :=
  ⟨[("1", ⟨"alice", ["2"], []⟩)], [], [], [], [], ["1"]⟩

/-- Fixture: user "1" with an old handle, one friend and one custom
nickname. -/
def renameFixture : St :=
  ⟨[("1", ⟨"old", ["2"], [("2", "nick")]⟩)], [], [], [], [], []⟩

/-! ### Helper lemmas about the dictionary model and the string order -/

theorem lexLt_asymm : ∀ x y : List Char, lexLt x y = true → lexLt y x = false
  | _, [], h => by simp [lexLt] at h
  | [], _ :: _, _ => by simp [lexLt]
  | a :: as, b :: bs, h => by
    simp only [lexLt] at h ⊢
    by_cases hab : a < b
    · simp [lt_asymm hab, hab]
    · by_cases hba : b < a
      · simp [hab, hba] at h
      · simp only [if_neg hab, if_neg hba] at h
        simp only [if_neg hab, if_neg hba]
        exact lexLt_asymm as bs h

theorem lexLt_conn : ∀ x y : List Char, lexLt x y = false → lexLt y x = false → x = y
  | [], [], _, _ => rfl
  | [], _ :: _, h, _ => by simp [lexLt] at h
  | _ :: _, [], _, h' => by simp [lexLt] at h'
  | a :: as, b :: bs, h, h' => by
    simp only [lexLt] at h h'
    by_cases hab : a < b
    · simp [hab] at h
    · by_cases hba : b < a
      · simp [hba] at h'
      · have hab' : a = b := le_antisymm (le_of_not_lt hba) (le_of_not_lt hab)
        simp only [if_neg hab, if_neg hba] at h h'
        rw [hab', lexLt_conn as bs h h']

theorem strConn {a b : String} (h : lexLt a.data b.data = false)
    (h' : lexLt b.data a.data = false) : a = b := by
  cases a; cases b
  exact congrArg String.mk (lexLt_conn _ _ h h')

theorem dlookup_dinsert_self {α : Type} (k : String) (v : α) :
    ∀ l : List (String × α), dlookup k (dinsert k v l) = some v := by
  intro l
  induction l with
  | nil => simp [dinsert, dlookup]
  | cons p rest ih =>
    obtain ⟨k', v'⟩ := p
    by_cases h : k' = k
    · subst h; simp [dinsert, dlookup]
    · simp [dinsert, dlookup, h, ih]

theorem dlookup_dinsert_ne {α : Type} {x k : String} (hx : x ≠ k) (v : α) :
    ∀ l : List (String × α), dlookup x (dinsert k v l) = dlookup x l := by
  intro l
  induction l with
  | nil => simp [dinsert, dlookup, Ne.symm hx]
  | cons p rest ih =>
    obtain ⟨k', v'⟩ := p
    by_cases h : k' = k
    · simp [dinsert, dlookup, h, Ne.symm hx]
    · simp [dinsert, dlookup, h, ih]

theorem dlookup_derase {α : Type} (x k : String) :
    ∀ l : List (String × α),
      dlookup x (derase k l) = if x = k then none else dlookup x l := by
  intro l
  induction l with
  | nil => simp [derase, dlookup]
  | cons p rest ih =>
    obtain ⟨k', v'⟩ := p
    by_cases h : k' = k
    · subst h
      by_cases hx : x = k'
      · subst hx; simp [derase, dlookup, ih]
      · simp [derase, dlookup, hx, Ne.symm hx, ih]
    · by_cases hx : k' = x
      · subst hx
        simp [derase, dlookup, h, Ne.symm h]
      · simp [derase, dlookup, h, hx, ih]

theorem derase_of_dlookup_none {α : Type} (k : String) :
    ∀ l : List (String × α), dlookup k l = none → derase k l = l := by
  intro l
  induction l with
  | nil => intro _; rfl
  | cons p rest ih =>
    obtain ⟨k', v'⟩ := p
    intro h
    simp only [dlookup] at h
    by_cases hk : k' = k
    · simp [hk] at h
    · simp only [derase, if_neg hk]
      rw [ih (by simpa [hk] using h)]

theorem dlookup_addFriend (uid fid x : String) :
    ∀ l : List (String × UserRec),
      dlookup x (addFriend uid fid l) =
        if uid = x then
          (dlookup x l).map (fun r => { r with friends := r.friends ++ [fid] })
        else dlookup x l := by
  intro l
  induction l with
  | nil => simp [addFriend, dlookup]
  | cons p rest ih =>
    obtain ⟨k, r⟩ := p
    by_cases hk : k = uid
    · subst hk
      by_cases hx : k = x
      · subst hx; simp [addFriend, dlookup]
      · simp [addFriend, dlookup, hx]
    · by_cases hx : k = x
      · subst hx
        simp [addFriend, dlookup, hk, Ne.symm hk]
      · simp [addFriend, dlookup, hk, hx, ih]

theorem sepFree_append_inj :
    ∀ (xs zs ys ws : List Char), '_' ∉ xs → '_' ∉ zs →
      xs ++ '_' :: ys = zs ++ '_' :: ws → xs = zs ∧ ys = ws
  | [], [], ys, ws, _, _, h => by simpa using h
  | [], z :: zs, ys, ws, _, hz, h => by
    simp only [List.nil_append, List.cons_append, List.cons.injEq] at h
    exact absurd (by rw [h.1]; exact List.mem_cons_self _ _) hz
  | x :: xs, [], ys, ws, hx, _, h => by
    simp only [List.nil_append, List.cons_append, List.cons.injEq] at h
    exact absurd (by rw [← h.1]; exact List.mem_cons_self _ _) hx
  | x :: xs, z :: zs, ys, ws, hx, hz, h => by
    simp only [List.cons_append, List.cons.injEq] at h
    have ih := sepFree_append_inj xs zs ys ws
      (fun hm => hx (List.mem_cons_of_mem _ hm))
      (fun hm => hz (List.mem_cons_of_mem _ hm)) h.2
    exact ⟨by rw [h.1, ih.1], ih.2⟩

theorem sepFree_strMin {a b : String} (ha : '_' ∉ a.data) (hb : '_' ∉ b.data) :
    '_' ∉ (strMin a b).data := by
  unfold strMin; split <;> assumption

theorem sepFree_strMax {a b : String} (ha : '_' ∉ a.data) (hb : '_' ∉ b.data) :
    '_' ∉ (strMax a b).data := by
  unfold strMax; split <;> assumption

theorem strMinMax_cases (a b : String) :
    (strMin a b = a ∧ strMax a b = b) ∨ (strMin a b = b ∧ strMax a b = a) := by
  unfold strMin strMax
  cases hba : lexLt b.data a.data with
  | true =>
    right
    refine ⟨by simp, ?_⟩
    simp [lexLt_asymm _ _ hba]
  | false =>
    cases hab : lexLt a.data b.data with
    | true => left; simp
    | false =>
      have hEq : a = b := strConn hab hba
      left
      simp [hEq]

theorem pairKey_parts {a b c d : String} (ha : '_' ∉ a.data) (hb : '_' ∉ b.data)
    (hc : '_' ∉ c.data) (hd : '_' ∉ d.data) (h : pairKey a b = pairKey c d) :
    strMin a b = strMin c d ∧ strMax a b = strMax c d := by
  have hdata := congrArg String.data h
  simp only [pairKey, String.data_append] at hdata
  have hsplit := sepFree_append_inj (strMin a b).data (strMin c d).data
    (strMax a b).data (strMax c d).data
    (sepFree_strMin ha hb) (sepFree_strMin hc hd) (by simpa using hdata)
  exact ⟨String.ext hsplit.1, String.ext hsplit.2⟩

/-! ### Claim theorems -/

/-- C4: the pair identifier `min(A,B) ++ "_" ++ max(A,B)` is symmetric,
and injective over unordered pairs of underscore-free id strings. -/
theorem c4_pairKey_symmetric_injective :
    (∀ a b : String, pairKey a b = pairKey b a) ∧
    (∀ a b c d : String, '_' ∉ a.data → '_' ∉ b.data → '_' ∉ c.data →
      '_' ∉ d.data → pairKey a b = pairKey c d →
      (a = c ∧ b = d) ∨ (a = d ∧ b = c)) := by
  constructor
  · intro a b
    unfold pairKey strMin strMax
    cases hba : lexLt b.data a.data with
    | true => simp [lexLt_asymm _ _ hba]
    | false =>
      cases hab : lexLt a.data b.data with
      | true => simp [lexLt_asymm _ _ hab, hab]
      | false =>
        have hEq : a = b := strConn hab hba
        simp [hEq]
  · intro a b c d ha hb hc hd h
    obtain ⟨hmin, hmax⟩ := pairKey_parts ha hb hc hd h
    rcases strMinMax_cases a b with ⟨h1, h2⟩ | ⟨h1, h2⟩
    · rcases strMinMax_cases c d with ⟨h3, h4⟩ | ⟨h3, h4⟩
      · exact Or.inl ⟨(h1.symm.trans hmin).trans h3, (h2.symm.trans hmax).trans h4⟩
      · exact Or.inr ⟨(h1.symm.trans hmin).trans h3, (h2.symm.trans hmax).trans h4⟩
    · rcases strMinMax_cases c d with ⟨h3, h4⟩ | ⟨h3, h4⟩
      · exact Or.inr ⟨(h2.symm.trans hmax).trans h4, (h1.symm.trans hmin).trans h3⟩
      · exact Or.inl ⟨(h2.symm.trans hmax).trans h4, (h1.symm.trans hmin).trans h3⟩

/-- Witness for C4 at the concrete pair ("2", "1") against ("1", "2"). -/
theorem c4_pairKey_symmetric_injective_witness :
    ('_' ∉ "2".data) ∧ pairKey "2" "1" = pairKey "1" "2" ∧
    ((("2" : String) = "1" ∧ ("1" : String) = "2") ∨
      (("2" : String) = "2" ∧ ("1" : String) = "1")) :=
  ⟨by decide, by decide,
    c4_pairKey_symmetric_injective.2 "2" "1" "1" "2"
      (by decide) (by decide) (by decide) (by decide) (by decide)⟩

/-- C10: when the notification send to the target raises, `start_chat_request`
leaves the persisted document unchanged: no chat request is recorded. -/
theorem c10_request_delivery_failure_unchanged (s : St) (u f : String) :
    (start_chat_request s u f none).1 = s := by
  unfold start_chat_request
  by_cases h1 : (dlookup u s.chat_requests).isSome
  · simp [h1]
  · by_cases h2 : (dlookup u s.active_chats).isSome
    · simp [h1, h2]
    · simp [h1, h2]

/-- C7 counterexample: with the `"file"` stage active (the flow is waiting
for a media upload) a text event is NOT consumed by the flow but forwarded
to the chat partner, and with the `"file_name"` text stage active a media
event is likewise forwarded. -/
theorem c7_stage_priority_counterexample :
    message_handler_route false (some "file") true = .chatRelay ∧
    file_handler_route false (some "file_name") true = .chatRelay := by
  decide

/-- C7 amended: a content event is consumed by the interaction flow, and
never forwarded to the chat partner, exactly when the active stage accepts
that event's kind — text for the five text stages (and, for the admin, the
admin stages), media for the file-upload stage (and, for the admin, the
broadcast stage).  An event of a kind the active stage does not accept
falls through to the Active Session relay — a text event during the
`"file"` stage, and a media event during any of the five text stages or
the admin lookup stages — and with no active stage the relay sees the
event. -/
theorem c7_stage_priority_amended (a h : Bool) :
    ((message_handler_route a (some "friend_username") h = .friendUsername ∧
      message_handler_route a (some "friend_nickname") h = .friendNickname ∧
      message_handler_route a (some "file_name") h = .fileName ∧
      message_handler_route a (some "file_comment") h = .fileComment ∧
      message_handler_route a (some "file_new_comment") h = .fileNewComment ∧
      file_handler_route a (some "file") h = .fileUpload) ∧
     (message_handler_route true (some "admin_broadcast") h = .adminBroadcast ∧
      message_handler_route true (some "admin_view_user") h = .adminViewUser ∧
      message_handler_route true (some "admin_ban") h = .adminBan ∧
      file_handler_route true (some "admin_broadcast") h = .adminBroadcast)) ∧
    ((message_handler_route a (some "file") h =
        (if h then .chatRelay else .dropped)) ∧
     (file_handler_route a (some "friend_username") h =
        (if h then .chatRelay else .dropped) ∧
      file_handler_route a (some "friend_nickname") h =
        (if h then .chatRelay else .dropped) ∧
      file_handler_route a (some "file_name") h =
        (if h then .chatRelay else .dropped) ∧
      file_handler_route a (some "file_comment") h =
        (if h then .chatRelay else .dropped) ∧
      file_handler_route a (some "file_new_comment") h =
        (if h then .chatRelay else .dropped)) ∧
     (file_handler_route true (some "admin_view_user") h =
        (if h then .chatRelay else .dropped) ∧
      file_handler_route true (some "admin_ban") h =
        (if h then .chatRelay else .dropped))) ∧
    (message_handler_route a none h = (if h then .chatRelay else .dropped) ∧
     file_handler_route a none h = (if h then .chatRelay else .dropped)) := by
  revert a h
  decide

/-- C1 counterexample: starting from the empty document (which satisfies
the invariant), the reachable operation sequence request("2","3"),
request("1","2"), accept by "2" of "1"'s request leaves identity "2"
holding both an outstanding chat request (to "3") and an active session
(with "1"). -/
theorem c1_chat_invariant_counterexample :
    chatInv St.initial ∧
    ¬ chatInv (accept_chat
      (start_chat_request
        (start_chat_request St.initial "2" "3" (some 10)).1 "1" "2" (some 11)).1
      "2" "1") := by
  constructor
  · intro x
    simp [chatInv, St.initial, dlookup]
  · intro h
    exact h "2" (by constructor <;> rfl)

theorem chatInv_initial : chatInv St.initial := by
  intro x
  simp [chatInv, St.initial, dlookup]

/-- C1 amended: request, cancel, decline and end preserve the
mutual-exclusion invariant unconditionally; accept preserves it provided
the accepting user has no outstanding chat request of their own (the
handler neither checks nor clears the acceptor's request slot). -/
theorem c1_chat_invariant_amended (s : St) (u f : String) (d : Option Nat)
    (hinv : chatInv s) :
    chatInv (start_chat_request s u f d).1 ∧
    chatInv (cancel_chat_request s u f).1 ∧
    chatInv (decline_chat s f) ∧
    chatInv (end_chat s u f) ∧
    (dlookup u s.chat_requests = none → chatInv (accept_chat s u f)) := by
  refine ⟨?_, ?_, ?_, ?_, ?_⟩
  · unfold start_chat_request
    by_cases h1 : (dlookup u s.chat_requests).isSome
    · simpa [h1] using hinv
    · by_cases h2 : (dlookup u s.active_chats).isSome
      · simpa [h1, h2] using hinv
      · cases d with
        | none => simpa [h1, h2] using hinv
        | some mid =>
          simp only [h1, h2, if_false, Bool.false_eq_true]
          intro x hx
          by_cases hxu : x = u
          · subst hxu
            exact h2 hx.2
          · rw [dlookup_dinsert_ne hxu] at hx
            exact hinv x hx
  · unfold cancel_chat_request
    cases hreq : dlookup u s.chat_requests with
    | none => simpa using hinv
    | some req =>
      by_cases haddr : req.to_id = f
      · simp only [haddr, if_true]
        intro x hx
        rw [dlookup_derase] at hx
        by_cases hxu : x = u
        · simp [hxu] at hx
        · rw [if_neg hxu] at hx
          exact hinv x hx
      · simpa [haddr] using hinv
  · intro x hx
    unfold decline_chat at hx
    rw [dlookup_derase] at hx
    by_cases hxf : x = f
    · simp [hxf] at hx
    · rw [if_neg hxf] at hx
      exact hinv x hx
  · intro x hx
    unfold end_chat at hx
    rw [dlookup_derase, dlookup_derase] at hx
    by_cases hxf : x = f
    · simp [hxf] at hx
    · by_cases hxu : x = u
      · simp [hxf, hxu] at hx
      · rw [if_neg hxf, if_neg hxu] at hx
        exact hinv x hx
  · intro hreq x hx
    unfold accept_chat at hx
    simp only at hx
    rw [dlookup_derase] at hx
    by_cases hxf : x = f
    · simp [hxf] at hx
    · rw [if_neg hxf] at hx
      by_cases hxu : x = u
      · subst hxu
        rw [hreq] at hx
        simp at hx
      · rw [dlookup_dinsert_ne hxf, dlookup_dinsert_ne hxu] at hx
        exact hinv x hx

/-- Witness for C1 amended at the empty document with identities "1", "2"
and a delivered notification id 3. -/
theorem c1_chat_invariant_amended_witness :
    chatInv (start_chat_request St.initial "1" "2" (some 3)).1 ∧
    chatInv (cancel_chat_request St.initial "1" "2").1 ∧
    chatInv (decline_chat St.initial "2") ∧
    chatInv (end_chat St.initial "1" "2") ∧
    (dlookup "1" St.initial.chat_requests = none →
      chatInv (accept_chat St.initial "1" "2")) :=
  c1_chat_invariant_amended St.initial "1" "2" (some 3) chatInv_initial

/-- C5: `start_chat_request` fails, recording nothing, whenever the sender
already has an outstanding chat request or an active session; otherwise
(with the notification delivered as message `mid`) it stores the chat
request for the sender referencing the addressed user and `mid`. -/
theorem c5_request_conflict_or_store (s : St) (u f : String) (d : Option Nat) :
    ((dlookup u s.chat_requests).isSome →
      start_chat_request s u f d = (s, .alreadyRequested)) ∧
    (dlookup u s.chat_requests = none → (dlookup u s.active_chats).isSome →
      start_chat_request s u f d = (s, .alreadyInChat)) ∧
    (dlookup u s.chat_requests = none → dlookup u s.active_chats = none →
      ∀ mid, d = some mid →
        start_chat_request s u f d =
          ({ s with chat_requests := dinsert u ⟨f, mid⟩ s.chat_requests }, .sent) ∧
        dlookup u (start_chat_request s u f d).1.chat_requests = some ⟨f, mid⟩) := by
  refine ⟨?_, ?_, ?_⟩
  · intro h1
    unfold start_chat_request
    simp [h1]
  · intro h1 h2
    unfold start_chat_request
    simp [h1, h2]
  · intro h1 h2 mid hd
    subst hd
    constructor
    · unfold start_chat_request
      simp [h1, h2]
    · unfold start_chat_request
      simp [h1, h2, dlookup_dinsert_self]

/-- Witness for C5 at the empty document: a fresh sender's request to "2"
with delivered notification id 7 is stored. -/
theorem c5_request_conflict_or_store_witness :
    start_chat_request St.initial "1" "2" (some 7) =
      ({ St.initial with chat_requests := dinsert "1" ⟨"2", 7⟩ St.initial.chat_requests },
        .sent) ∧
    dlookup "1" (start_chat_request St.initial "1" "2" (some 7)).1.chat_requests =
      some ⟨"2", 7⟩ :=
  (c5_request_conflict_or_store St.initial "1" "2" (some 7)).2.2 rfl rfl 7 rfl

/-- C8 counterexample: user "1" is banned, yet the restart button press —
a button entry point, which performs no ban check — still mutates the
persisted document (the user record is overwritten, erasing the friend
list) and shows the menu. -/
theorem c8_ban_gate_counterexample :
    is_banned bannedFixture "1" = true ∧
    restart_button bannedFixture "1" "alice" ≠ bannedFixture ∧
    dlookup "1" (restart_button bannedFixture "1" "alice").users =
      some ⟨"alice", [], []⟩ := by
  refine ⟨rfl, ?_, rfl⟩
  decide

/-- C8 amended: the ban check guards only the `/start` command entry
point, where a banned user gets no registration and no menu; button-press
and message entry points perform no ban check at all. -/
theorem c8_ban_gate_amended (s : St) (u n : String)
    (hban : is_banned s u = true) :
    start s u n = (s, .banned) := by
  unfold start
  simp [hban]

/-- Witness for C8 amended at the banned fixture. -/
theorem c8_ban_gate_amended_witness :
    start bannedFixture "1" "alice" = (bannedFixture, .banned) :=
  c8_ban_gate_amended bannedFixture "1" "alice" rfl

/-- C9 counterexample: user "1" is registered with handle "old", friend
"2" and a custom nickname.  Re-contact via `/start` does NOT overwrite the
stored handle (the record is untouched), while explicit re-registration
via the restart button DOES erase the friend list. -/
theorem c9_register_counterexample :
    (start renameFixture "1" "new").1 = renameFixture ∧
    dlookup "1" (restart_button renameFixture "1" "new").users =
      some ⟨"new", [], []⟩ ∧
    friendsOf (restart_button renameFixture "1" "new").users "1" = [] := by
  refine ⟨?_, rfl, rfl⟩
  decide

/-- C9 amended: first-contact registration in `/start` creates the record
only when absent and otherwise leaves handle and friend list untouched;
explicit re-registration via the restart button replaces the whole record,
overwriting the handle and resetting the friend list to empty. -/
theorem c9_register_amended (s : St) (u n : String) :
    (is_banned s u = false → (dlookup u s.users).isSome → (start s u n).1 = s) ∧
    (is_banned s u = false → dlookup u s.users = none →
      (start s u n).1 = { s with users := dinsert u ⟨n, [], []⟩ s.users }) ∧
    dlookup u (restart_button s u n).users = some ⟨n, [], []⟩ := by
  refine ⟨?_, ?_, ?_⟩
  · intro hban hsome
    have h' : ¬ dlookup u s.users = none := by
      intro hn; rw [hn] at hsome; simp at hsome
    unfold start
    simp [hban, h', apply_ite]
  · intro hban hnone
    unfold start
    simp [hban, hnone, apply_ite]
  · unfold restart_button
    simp [dlookup_dinsert_self]

/-- Witness for C9 amended at the rename fixture (user "1" already
registered, not banned). -/
theorem c9_register_amended_witness :
    (start renameFixture "1" "new").1 = renameFixture ∧
    dlookup "1" (restart_button renameFixture "1" "new").users =
      some ⟨"new", [], []⟩ :=
  ⟨(c9_register_amended renameFixture "1" "new").1 rfl rfl,
   (c9_register_amended renameFixture "1" "new").2.2⟩

/-- C6: sending an invite fails with UnknownHandle when the
(case-insensitive) handle resolution finds nobody, with SelfInvite when
the resolved target is the sender, with AlreadyFriends when the target is
already in the sender's friend list, and otherwise stores the invite
addressed to the target, silently overwriting any prior invite in that
user's single inbound slot. -/
theorem c6_send_invite (s : St) (user_id sender_username text : String) :
    ((resolve_by_handle s.users ⟨(stripChars text.data).dropWhile (· = '@')⟩ = none →
      handle_friend_username s user_id sender_username text = (s, .unknownHandle)) ∧
     (∀ fid,
      resolve_by_handle s.users ⟨(stripChars text.data).dropWhile (· = '@')⟩ = some fid →
      (fid = user_id →
        handle_friend_username s user_id sender_username text = (s, .selfInvite)) ∧
      (fid ≠ user_id → fid ∈ friendsOf s.users user_id →
        handle_friend_username s user_id sender_username text = (s, .alreadyFriends)) ∧
      (fid ≠ user_id → fid ∉ friendsOf s.users user_id →
        handle_friend_username s user_id sender_username text =
          ({ s with invites := dinsert fid ⟨user_id, sender_username⟩ s.invites },
            .sent) ∧
        dlookup fid (handle_friend_username s user_id sender_username text).1.invites =
          some ⟨user_id, sender_username⟩))) := by
  constructor
  · intro hres
    unfold handle_friend_username
    simp [hres]
  · intro fid hres
    refine ⟨?_, ?_, ?_⟩
    · intro hself
      unfold handle_friend_username
      simp [hres, hself]
    · intro hself hmem
      unfold handle_friend_username
      simp [hres, hself, hmem]
    · intro hself hmem
      constructor
      · unfold handle_friend_username
        simp [hres, hself, hmem]
      · unfold handle_friend_username
        simp [hres, hself, hmem, dlookup_dinsert_self]

/-- Witness for C6 at the overwrite fixture: "alice" (id "1") types
" @bob " which resolves case-insensitively to id "2" whose handle is
"Bob"; the invite is stored, replacing the prior invite from "9". -/
theorem c6_send_invite_witness :
    resolve_by_handle overwriteInviteFixture.users
        ⟨(stripChars " @bob ".data).dropWhile (· = '@')⟩ = some "2" ∧
    ("2" : String) ≠ "1" ∧
    "2" ∉ friendsOf overwriteInviteFixture.users "1" ∧
    (handle_friend_username overwriteInviteFixture "1" "alice" " @bob " =
      ({ overwriteInviteFixture with
          invites := dinsert "2" ⟨"1", "alice"⟩ overwriteInviteFixture.invites },
        .sent) ∧
     dlookup "2"
        (handle_friend_username overwriteInviteFixture "1" "alice" " @bob ").1.invites =
        some ⟨"1", "alice"⟩) :=
  ⟨by decide, by decide, by decide,
   ((c6_send_invite overwriteInviteFixture "1" "alice" " @bob ").2 "2"
      (by decide)).2.2 (by decide) (by decide)⟩

theorem isSome_dlookup_dinsert {α : Type} (x k : String) (v : α)
    (l : List (String × α)) (h : (dlookup x l).isSome) :
    (dlookup x (dinsert k v l)).isSome := by
  by_cases hx : x = k
  · subst hx; simp [dlookup_dinsert_self]
  · rw [dlookup_dinsert_ne hx]; exact h

theorem isSome_dlookup_ensureUser_self (uid n : String)
    (l : List (String × UserRec)) : (dlookup uid (ensureUser uid n l)).isSome := by
  unfold ensureUser
  split
  · simp [dlookup_dinsert_self]
  · rename_i h
    cases hl : dlookup uid l with
    | none => rw [hl] at h; simp at h
    | some v => simp

theorem isSome_dlookup_ensureUser (x uid n : String)
    (l : List (String × UserRec)) (h : (dlookup x l).isSome) :
    (dlookup x (ensureUser uid n l)).isSome := by
  unfold ensureUser
  split
  · exact isSome_dlookup_dinsert x uid _ l h
  · exact h

theorem mem_friendsOf_ensureUser (x y uid n : String)
    (l : List (String × UserRec)) (h : y ∈ friendsOf l x) :
    y ∈ friendsOf (ensureUser uid n l) x := by
  unfold ensureUser
  split
  · rename_i hn
    by_cases hx : x = uid
    · subst hx
      rw [Option.isNone_iff_eq_none] at hn
      simp [friendsOf, hn] at h
    · simpa [friendsOf, dlookup_dinsert_ne hx] using h
  · exact h

theorem dlookup_addFriend_isSome (x uid fid : String)
    (l : List (String × UserRec)) :
    (dlookup x (addFriend uid fid l)).isSome = (dlookup x l).isSome := by
  rw [dlookup_addFriend]
  split
  · cases dlookup x l <;> simp
  · rfl

theorem mem_friendsOf_addFriend (x y uid fid : String)
    (l : List (String × UserRec)) (h : y ∈ friendsOf l x) :
    y ∈ friendsOf (addFriend uid fid l) x := by
  by_cases hux : uid = x
  · subst hux
    cases hl : dlookup uid l with
    | none => simp [friendsOf, hl] at h
    | some r =>
      simp only [friendsOf, hl, Option.map_some, Option.getD_some] at h
      simp only [friendsOf, dlookup_addFriend, if_pos rfl, hl, Option.map_some,
        Option.getD_some]
      exact List.mem_append_left _ h
  · simpa [friendsOf, dlookup_addFriend, hux] using h

theorem mem_friendsOf_addFriendIfMissing_self (uid fid : String)
    (l : List (String × UserRec)) (h : (dlookup uid l).isSome) :
    fid ∈ friendsOf (addFriendIfMissing uid fid l) uid := by
  unfold addFriendIfMissing
  split
  · assumption
  · obtain ⟨r, hr⟩ := Option.isSome_iff_exists.mp h
    simp [friendsOf, dlookup_addFriend, hr]

theorem mem_friendsOf_addFriendIfMissing (x y uid fid : String)
    (l : List (String × UserRec)) (h : y ∈ friendsOf l x) :
    y ∈ friendsOf (addFriendIfMissing uid fid l) x := by
  unfold addFriendIfMissing
  split
  · exact h
  · exact mem_friendsOf_addFriend x y uid fid l h

theorem isSome_dlookup_addFriendIfMissing (x uid fid : String)
    (l : List (String × UserRec)) :
    (dlookup x (addFriendIfMissing uid fid l)).isSome = (dlookup x l).isSome := by
  unfold addFriendIfMissing
  split
  · rfl
  · exact dlookup_addFriend_isSome x uid fid l

theorem isSome_dlookup_ensureGallery_self (gid : String) (m : List String)
    (g : List (String × Gallery)) : (dlookup gid (ensureGallery gid m g)).isSome := by
  unfold ensureGallery
  split
  · simp [dlookup_dinsert_self]
  · rename_i h
    cases hl : dlookup gid g with
    | none => rw [hl] at h; simp at h
    | some v => simp

theorem dlookup_ensureGallery_of_none {gid : String} {m : List String}
    {g : List (String × Gallery)} (h : dlookup gid g = none) :
    dlookup gid (ensureGallery gid m g) = some ⟨m, []⟩ := by
  unfold ensureGallery
  rw [if_pos (by simp [h]), dlookup_dinsert_self]

theorem ensureUser_of_isSome {uid n : String} {l : List (String × UserRec)}
    (h : (dlookup uid l).isSome) : ensureUser uid n l = l := by
  unfold ensureUser
  rw [if_neg]
  cases hl : dlookup uid l with
  | none => rw [hl] at h; simp at h
  | some v => simp

theorem addFriendIfMissing_of_mem {uid fid : String} {l : List (String × UserRec)}
    (h : fid ∈ friendsOf l uid) : addFriendIfMissing uid fid l = l := by
  unfold addFriendIfMissing
  rw [if_pos h]

theorem ensureGallery_of_isSome {gid : String} {m : List String}
    {g : List (String × Gallery)} (h : (dlookup gid g).isSome) :
    ensureGallery gid m g = g := by
  unfold ensureGallery
  rw [if_neg]
  cases hl : dlookup gid g with
  | none => rw [hl] at h; simp at h
  | some v => simp

theorem accept_invite_users_eq (s : St) (u n f : String) :
    (accept_invite s u n f).users =
      addFriendIfMissing f u (addFriendIfMissing u f
        (ensureUser f "unknown" (ensureUser u n s.users))) := rfl

theorem accept_invite_galleries_eq (s : St) (u n f : String) :
    (accept_invite s u n f).galleries =
      ensureGallery (pairKey u f) [u, f] s.galleries := rfl

theorem accept_invite_invites_eq (s : St) (u n f : String) :
    (accept_invite s u n f).invites = derase u s.invites := rfl

theorem accept_invite_mem_left (s : St) (u n f : String) :
    f ∈ friendsOf (accept_invite s u n f).users u := by
  rw [accept_invite_users_eq]
  exact mem_friendsOf_addFriendIfMissing _ _ _ _ _
    (mem_friendsOf_addFriendIfMissing_self _ _ _
      (isSome_dlookup_ensureUser _ _ _ _ (isSome_dlookup_ensureUser_self _ _ _)))

theorem accept_invite_mem_right (s : St) (u n f : String) :
    u ∈ friendsOf (accept_invite s u n f).users f := by
  rw [accept_invite_users_eq]
  apply mem_friendsOf_addFriendIfMissing_self
  rw [isSome_dlookup_addFriendIfMissing]
  exact isSome_dlookup_ensureUser_self _ _ _

theorem accept_invite_lookup_isSome_left (s : St) (u n f : String) :
    (dlookup u (accept_invite s u n f).users).isSome := by
  rw [accept_invite_users_eq, isSome_dlookup_addFriendIfMissing,
    isSome_dlookup_addFriendIfMissing]
  exact isSome_dlookup_ensureUser _ _ _ _ (isSome_dlookup_ensureUser_self _ _ _)

theorem accept_invite_lookup_isSome_right (s : St) (u n f : String) :
    (dlookup f (accept_invite s u n f).users).isSome := by
  rw [accept_invite_users_eq, isSome_dlookup_addFriendIfMissing,
    isSome_dlookup_addFriendIfMissing]
  exact isSome_dlookup_ensureUser_self _ _ _

theorem accept_invite_gallery_isSome (s : St) (u n f : String) :
    (dlookup (pairKey u f) (accept_invite s u n f).galleries).isSome := by
  rw [accept_invite_galleries_eq]
  exact isSome_dlookup_ensureGallery_self _ _ _

theorem accept_invite_invite_gone (s : St) (u n f : String) :
    dlookup u (accept_invite s u n f).invites = none := by
  rw [accept_invite_invites_eq, dlookup_derase, if_pos rfl]

/-- C3: after user B accepts an invite from user A, A is in B's friend
list and B is in A's friend list, the gallery keyed by `pairKey(A,B)`
exists, and when that gallery is newly created by the accept it holds the
pair's membership and zero files. -/
theorem c3_accept_invite_effects (s : St) (u n f : String) :
    f ∈ friendsOf (accept_invite s u n f).users u ∧
    u ∈ friendsOf (accept_invite s u n f).users f ∧
    (dlookup (pairKey u f) (accept_invite s u n f).galleries).isSome ∧
    (dlookup (pairKey u f) s.galleries = none →
      dlookup (pairKey u f) (accept_invite s u n f).galleries =
        some ⟨[u, f], []⟩) := by
  refine ⟨accept_invite_mem_left s u n f, accept_invite_mem_right s u n f,
    accept_invite_gallery_isSome s u n f, ?_⟩
  intro hnone
  rw [accept_invite_galleries_eq]
  exact dlookup_ensureGallery_of_none hnone

/-- Witness for C3 at the pending-invite fixture: "2" accepts the invite
from "1"; the pair's gallery did not exist before and holds zero files
afterwards. -/
theorem c3_accept_invite_effects_witness :
    dlookup (pairKey "2" "1") pendingInviteFixture.galleries = none ∧
    dlookup (pairKey "2" "1")
        (accept_invite pendingInviteFixture "2" "bob" "1").galleries =
      some ⟨["2", "1"], []⟩ :=
  ⟨by decide,
   (c3_accept_invite_effects pendingInviteFixture "2" "bob" "1").2.2.2 (by decide)⟩

/-- C2 counterexample: no invite for "2" exists anywhere in the document,
yet accepting "from 1" still proceeds with its full effect — the
friendship edge and the gallery are created and success is reported; no
NotFoundError path exists in the handler. -/
theorem c2_accept_requires_invite_counterexample :
    dlookup "2" noInviteFixture.invites = none ∧
    "1" ∈ friendsOf (accept_invite noInviteFixture "2" "bob" "1").users "2" ∧
    (dlookup (pairKey "2" "1")
      (accept_invite noInviteFixture "2" "bob" "1").galleries).isSome := by
  refine ⟨rfl, ?_, ?_⟩ <;> decide

/-- C2 amended: accepting does not require a pending invite and never
fails; it deletes any invite addressed to the acceptor, and a second
accept of the same (now-deleted) invite is a no-op on the persisted
document — it reports success and changes nothing. -/
theorem c2_accept_idempotent (s : St) (u n f : String) :
    dlookup u (accept_invite s u n f).invites = none ∧
    accept_invite (accept_invite s u n f) u n f = accept_invite s u n f := by
  refine ⟨accept_invite_invite_gone s u n f, ?_⟩
  have hu := accept_invite_lookup_isSome_left s u n f
  have hf := accept_invite_lookup_isSome_right s u n f
  have hmemL := accept_invite_mem_left s u n f
  have hmemR := accept_invite_mem_right s u n f
  have hg := accept_invite_gallery_isSome s u n f
  have hi := accept_invite_invite_gone s u n f
  show { accept_invite s u n f with
      users := addFriendIfMissing f u (addFriendIfMissing u f
        (ensureUser f "unknown" (ensureUser u n (accept_invite s u n f).users))),
      galleries := ensureGallery (pairKey u f) [u, f]
        (accept_invite s u n f).galleries,
      invites := derase u (accept_invite s u n f).invites } =
    accept_invite s u n f
  rw [ensureUser_of_isSome hu, ensureUser_of_isSome hf,
    addFriendIfMissing_of_mem hmemL, addFriendIfMissing_of_mem hmemR,
    ensureGallery_of_isSome hg, derase_of_dlookup_none _ _ hi]

end GalleryBot
